import Mathlib

/-!
Verification development for the TNT audio-processing pipeline.

The repository derives audio-processing parameters (EQ gains, compressor
settings, dynamic-normalization targets, ReplayGain tags) from measured
statistics and sequences them through a staged, fail-fast pipeline.  All
numeric code below is a shallow embedding of the Go source: functions whose
arithmetic is exact decimal arithmetic (the EQ curve and clamp code) are
modelled over the rationals so they can be evaluated by `decide`; functions
built on `math.Pow`/`math.Sqrt` (dB-to-linear conversion and everything
downstream of it) are modelled over the reals with `Real.rpow`.

Sources embedded here:
  * `src/go/freq_anal.go` - 10-band EQ analysis and filter construction
    (namespace `FreqAnal`);
  * `src/go-refactor/ui.go` - the refactored EQ path with the extreme-band
    clamp `clampExtremeEQ` (namespace `UI`);
  * `src/go/dynscore.go` and
    `src/go-refactor/internal/audio/compression.go` - compression modifiers
    (the two copies are identical line for line) and parameter clamping;
  * `src/unnamed/part_007` (main program, version 1.3.0) - the multiband
    band compressor `buildBandAcompressor`, the ReplayGain tag block and the
    control flow of `processFile`;
  * `src/unnamed/part_003` - `CalculateDynaudnormParams`.
-/

/-- FrequencyBand mirrors the Go struct of `freq_anal.go`: one of the ten
octave analysis bands, with the measured levels in dB. -/
structure FrequencyBand where
  Frequency : String
  FilterType : String
  RMSLevel : ℚ
  PeakLevel : ℚ
  CrestFactor : ℚ
deriving DecidableEq, Repr

/-- EqFilterPart abstracts one element of the comma-joined FFmpeg filter
chain that `buildEqFilter` renders with `fmt.Sprintf`: the shelving filters
for the extreme bands, the `anequalizer` band filters for the inner bands,
and the fixed per-preset high-pass and low-pass brackets of the refactored
builder.  The numeric fields are exactly the numbers printed into the
string. -/
inductive EqFilterPart where
  | lowshelf (freq gain : ℚ)
  | highshelf (freq gain : ℚ)
  | anequalizer (centerFreq bandwidth gain : ℚ)
  | preHighpass (freq poles : ℚ)
  | preLowpass (freq poles : ℚ)
deriving DecidableEq, Repr

/-- getBandpassParams from `freq_anal.go` (identical in `ui.go`): center
frequency in Hz for each named band, with a one-octave bandwidth equal to
the center frequency; a name outside the map yields the Go zero value. -/
def getBandpassParams (freqStr : String) : ℚ × ℚ :=
  let centerFreq : ℚ :=
    if freqStr = "100Hz" then 100
    else if freqStr = "200Hz" then 200
    else if freqStr = "400Hz" then 400
    else if freqStr = "800Hz" then 800
    else if freqStr = "1.6kHz" then 1600
    else if freqStr = "3.2kHz" then 3200
    else if freqStr = "6.4kHz" then 6400
    else if freqStr = "12.8kHz" then 12800
    else 0
  (centerFreq, centerFreq)

namespace FreqAnal

/-- getOctavesFrom1k from `src/go/freq_anal.go`: tabulated octave distance
from 1 kHz for each band label (`12.8kHz+` is approximated as 4.5). -/
def getOctavesFrom1k (freqStr : String) : ℚ :=
  if freqStr = "50Hz" then -4.32
  else if freqStr = "100Hz" then -3.32
  else if freqStr = "200Hz" then -2.32
  else if freqStr = "400Hz" then -1.32
  else if freqStr = "800Hz" then -0.32
  else if freqStr = "1.6kHz" then 0.68
  else if freqStr = "3.2kHz" then 1.68
  else if freqStr = "6.4kHz" then 2.68
  else if freqStr = "12.8kHz" then 3.68
  else if freqStr = "12.8kHz+" then 4.5
  else 0

/-- speechAdjustment: the per-band speech offsets of the `Speech` branch of
`calculateTargetCurve` in `src/go/freq_anal.go`. -/
def speechAdjustment (freqStr : String) : ℚ :=
  if freqStr = "50Hz" then -9
  else if freqStr = "100Hz" then -4.5
  else if freqStr = "200Hz" then 1
  else if freqStr = "400Hz" then -4
  else if freqStr = "800Hz" then 0.5
  else if freqStr = "1.6kHz" then 3
  else if freqStr = "3.2kHz" then 2
  else if freqStr = "6.4kHz" then 1
  else if freqStr = "12.8kHz" then 1.5
  else 0

/-- broadcastAdjustment: the per-band broadcast offsets of the `Broadcast`
branch of `calculateTargetCurve` in `src/go/freq_anal.go`. -/
def broadcastAdjustment (freqStr : String) : ℚ :=
  if freqStr = "50Hz" then -12
  else if freqStr = "100Hz" then -8
  else if freqStr = "200Hz" then -0.5
  else if freqStr = "400Hz" then -5.5
  else if freqStr = "800Hz" then 2
  else if freqStr = "1.6kHz" then 4.5
  else if freqStr = "3.2kHz" then 3.5
  else if freqStr = "6.4kHz" then 3
  else if freqStr = "12.8kHz" then -1.5
  else if freqStr = "12.8kHz+" then -1.5
  else 0

/-- overallRMS: the mean of the ten band RMS levels, computed at the top of
`calculateTargetCurve`. -/
def overallRMS (bands : List FrequencyBand) : ℚ :=
  (bands.map (·.RMSLevel)).sum / (bands.length : ℚ)

/-- flatTarget: the per-band target of the `Flat` branch of
`calculateTargetCurve` in `src/go/freq_anal.go`: bands above the pink-noise
reference `overallRMS - 3 * octavesFrom1k` are attenuated at a 2:1 ratio
with the attenuation limited to 10 dB, bands at or below it are left
alone. -/
def flatTarget (overall : ℚ) (band : FrequencyBand) : ℚ :=
  let octavesFrom1k := getOctavesFrom1k band.Frequency
  let pinkNoiseRef := overall - octavesFrom1k * 3
  if band.RMSLevel > pinkNoiseRef then
    let excess := band.RMSLevel - pinkNoiseRef
    let attenuation := excess / 2
    let attenuation := if attenuation > 10 then 10 else attenuation
    band.RMSLevel - attenuation
  else
    band.RMSLevel

/-- correctionTarget: the shared body of the `Speech` and `Broadcast`
branches of `calculateTargetCurve` in `src/go/freq_anal.go`: the deviation
from `pinkNoiseRef + adjustment` is corrected at a 2:1 ratio, limited to
10 dB either way, and corrections inside (-0.5, 0.5) are skipped. -/
def correctionTarget (overall : ℚ) (adjustment : ℚ) (band : FrequencyBand) : ℚ :=
  let octavesFrom1k := getOctavesFrom1k band.Frequency
  let pinkNoiseRef := overall - octavesFrom1k * 3
  let targetLevel := pinkNoiseRef + adjustment
  let deviation := band.RMSLevel - targetLevel
  let correction := deviation / 2
  let correction := if correction > 10 then 10 else if correction < -10 then -10 else correction
  if correction > -0.5 ∧ correction < 0.5 then band.RMSLevel
  else band.RMSLevel - correction

/-- calculateTargetCurve from `src/go/freq_anal.go`: per-band target RMS
levels for the chosen preset; any other target string leaves every band at
its measured level. -/
def calculateTargetCurve (bands : List FrequencyBand) (eqTarget : String) : List ℚ :=
  let overall := overallRMS bands
  if eqTarget = "Flat" then
    bands.map (flatTarget overall)
  else if eqTarget = "Speech" then
    bands.map (fun band => correctionTarget overall (speechAdjustment band.Frequency) band)
  else if eqTarget = "Broadcast" then
    bands.map (fun band => correctionTarget overall (broadcastAdjustment band.Frequency) band)
  else
    bands.map (·.RMSLevel)

/-- eqGain: the gain computed per band in `buildEqFilter` of
`src/go/freq_anal.go`, limited to 10 dB either way. -/
def eqGain (targetLevel : ℚ) (band : FrequencyBand) : ℚ :=
  let gain := targetLevel - band.RMSLevel
  if gain > 10 then 10 else if gain < -10 then -10 else gain

/-- eqFilterPart: the filter `buildEqFilter` appends for one band, `none`
when the gain is inside (-0.5, 0.5) or the filter type is not one of the
three known kinds. -/
def eqFilterPart (band : FrequencyBand) (gain : ℚ) : Option EqFilterPart :=
  if gain > -0.5 ∧ gain < 0.5 then none
  else if band.FilterType = "lowpass" then some (.lowshelf 50 gain)
  else if band.FilterType = "highpass" then some (.highshelf 12800 gain)
  else if band.FilterType = "bandpass" then
    let p := getBandpassParams band.Frequency
    some (.anequalizer p.1 p.2 gain)
  else none

/-- buildEqFilter from `src/go/freq_anal.go`: the filter chain is the
per-band filters in band order; an empty band list or the `Off` target give
the empty chain (the empty string in Go). -/
def buildEqFilter (bands : List FrequencyBand) (eqTarget : String) : List EqFilterPart :=
  if bands.length = 0 ∨ eqTarget = "Off" then []
  else
    let targetLevels := calculateTargetCurve bands eqTarget
    (bands.zip targetLevels).filterMap
      (fun bt => eqFilterPart bt.1 (eqGain bt.2 bt.1))

end FreqAnal

/-- standardBands: the ten analysis bands as initialized by
`analyzeFrequencyResponseBands`, with the given per-band RMS levels and
zero peak and crest values (the claims under study read only the RMS). -/
def standardBands (rms : List ℚ) : List FrequencyBand :=
  (List.zip
    [("50Hz", "lowpass"), ("100Hz", "bandpass"), ("200Hz", "bandpass"),
     ("400Hz", "bandpass"), ("800Hz", "bandpass"), ("1.6kHz", "bandpass"),
     ("3.2kHz", "bandpass"), ("6.4kHz", "bandpass"), ("12.8kHz", "bandpass"),
     ("12.8kHz+", "highpass")] rms).map
    (fun x => { Frequency := x.1.1, FilterType := x.1.2, RMSLevel := x.2,
                PeakLevel := 0, CrestFactor := 0 })

namespace UI

/-- getOctavesFrom1k from `src/go-refactor/ui.go`: same table as the
`FreqAnal` version except that `12.8kHz+` is approximated as 5.0. -/
def getOctavesFrom1k (freqStr : String) : ℚ :=
  if freqStr = "50Hz" then -4.32
  else if freqStr = "100Hz" then -3.32
  else if freqStr = "200Hz" then -2.32
  else if freqStr = "400Hz" then -1.32
  else if freqStr = "800Hz" then -0.32
  else if freqStr = "1.6kHz" then 0.68
  else if freqStr = "3.2kHz" then 1.68
  else if freqStr = "6.4kHz" then 2.68
  else if freqStr = "12.8kHz" then 3.68
  else if freqStr = "12.8kHz+" then 5
  else 0

/-- speechAdjustment: the per-band offsets of the `Speech` branch of
`calculateTargetCurve` in `src/go-refactor/ui.go`. -/
def speechAdjustment (freqStr : String) : ℚ :=
  if freqStr = "50Hz" then -9
  else if freqStr = "100Hz" then -3.5
  else if freqStr = "200Hz" then -2.5
  else if freqStr = "400Hz" then -3
  else if freqStr = "800Hz" then 0.5
  else if freqStr = "1.6kHz" then 3
  else if freqStr = "3.2kHz" then 1
  else if freqStr = "6.4kHz" then 0
  else if freqStr = "12.8kHz" then -2
  else if freqStr = "12.8kHz+" then -2
  else 0

/-- broadcastAdjustment: the per-band offsets of the `Broadcast` branch of
`calculateTargetCurve` in `src/go-refactor/ui.go`. -/
def broadcastAdjustment (freqStr : String) : ℚ :=
  if freqStr = "50Hz" then -2
  else if freqStr = "100Hz" then -1
  else if freqStr = "200Hz" then -2.5
  else if freqStr = "400Hz" then -4.5
  else if freqStr = "800Hz" then 1
  else if freqStr = "1.6kHz" then 2.5
  else if freqStr = "3.2kHz" then 3.5
  else if freqStr = "6.4kHz" then 2
  else if freqStr = "12.8kHz" then -0.5
  else if freqStr = "12.8kHz+" then -2.5
  else 0

/-- flatTarget: the `Flat` branch of `calculateTargetCurve` in
`src/go-refactor/ui.go`; its pink-noise reference is the overall RMS with
no per-octave term. -/
def flatTarget (overall : ℚ) (band : FrequencyBand) : ℚ :=
  let pinkNoiseRef := overall
  if band.RMSLevel > pinkNoiseRef then
    let excess := band.RMSLevel - pinkNoiseRef
    let attenuation := excess / 2
    let attenuation := if attenuation > 10 then 10 else attenuation
    band.RMSLevel - attenuation
  else
    band.RMSLevel

/-- correctionTarget: the shared body of the `Speech` and `Broadcast`
branches of `calculateTargetCurve` in `src/go-refactor/ui.go` (2:1
correction of the deviation from `pinkNoiseRef + adjustment`, limited to
10 dB, tiny corrections skipped). -/
def correctionTarget (overall : ℚ) (adjustment : ℚ) (band : FrequencyBand) : ℚ :=
  let octavesFrom1k := getOctavesFrom1k band.Frequency
  let pinkNoiseRef := overall - octavesFrom1k * 3
  let targetLevel := pinkNoiseRef + adjustment
  let deviation := band.RMSLevel - targetLevel
  let correction := deviation / 2
  let correction := if correction > 10 then 10 else if correction < -10 then -10 else correction
  if correction > -0.5 ∧ correction < 0.5 then band.RMSLevel
  else band.RMSLevel - correction

/-- calculateTargetCurve from `src/go-refactor/ui.go`. -/
def calculateTargetCurve (bands : List FrequencyBand) (eqTarget : String) : List ℚ :=
  let overall := FreqAnal.overallRMS bands
  if eqTarget = "Flat" then
    bands.map (flatTarget overall)
  else if eqTarget = "Speech" then
    bands.map (fun band => correctionTarget overall (speechAdjustment band.Frequency) band)
  else if eqTarget = "Broadcast" then
    bands.map (fun band => correctionTarget overall (broadcastAdjustment band.Frequency) band)
  else
    bands.map (·.RMSLevel)

/-- innerAvg: the average of the non-extreme gains computed by
`clampExtremeEQ` in `src/go-refactor/ui.go` (`avgNonExtremes`). -/
def innerAvg (gains : List ℚ) : ℚ :=
  ((gains.drop 1).dropLast).sum / ((gains.length : ℚ) - 2)

/-- shelfRange: the most restrictive (min, max) pair `clampExtremeEQ`
derives for one shelf: within 4 dB of the other shelf (`other`), within
4 dB of the inner neighbor, and bounded by the non-extreme average from
above when that average is nonnegative and from below when it is negative
(999 and -999 stand for the absent bound, as in the Go source). -/
def shelfRange (other neighbor avgNonExtremes : ℚ) : ℚ × ℚ :=
  let maxFromOther := other + 4
  let minFromOther := other - 4
  let maxFromNeighbor := neighbor + 4
  let minFromNeighbor := neighbor - 4
  let maxFromAvg := if avgNonExtremes ≥ 0 then avgNonExtremes else 999
  let minFromAvg := if avgNonExtremes ≥ 0 then -999 else avgNonExtremes
  (max (max minFromOther minFromNeighbor) minFromAvg,
   min (min maxFromOther maxFromNeighbor) maxFromAvg)

/-- clampShelf: the clamping step of `clampExtremeEQ`: values above the
upper limit drop to it, values below the lower limit rise to it, values in
between pass through.  The upper test runs first, so with an empty range
(lower limit above upper limit) a value above the upper limit is still set
to the upper limit even though that violates the lower limit. -/
def clampShelf (v : ℚ) (range : ℚ × ℚ) : ℚ :=
  if v > range.2 then range.2
  else if v < range.1 then range.1
  else v

/-- clampExtremeEQ from `src/go-refactor/ui.go`: restricts the first (low
shelf) and last (high shelf) gains against the extreme-to-extreme rule, the
extreme-to-neighbor rule and the non-extreme-average rule, taking the most
restrictive limits; the low shelf is resolved first and the high shelf is
bounded against the already-clamped low value.  Fewer than three bands are
returned unchanged. -/
def clampExtremeEQ (gains : List ℚ) : List ℚ :=
  if gains.length < 3 then gains
  else
    let lowShelf := gains.headI
    let highShelf := gains.getLastI
    let inner := (gains.drop 1).dropLast
    let avgNonExtremes := innerAvg gains
    let firstNeighbor := inner.headI
    let lastNeighbor := inner.getLastI
    let newLow := clampShelf lowShelf (shelfRange highShelf firstNeighbor avgNonExtremes)
    let newHigh := clampShelf highShelf (shelfRange newLow lastNeighbor avgNonExtremes)
    (gains.set 0 newLow).set (gains.length - 1) newHigh

/-- presetBrackets: the fixed per-preset high-pass and low-pass filters of
`buildEqFilter` in `src/go-refactor/ui.go` (`none` stands for the empty
filter string). -/
def presetBrackets (eqTarget : String) : Option EqFilterPart × Option EqFilterPart :=
  if eqTarget = "Flat" then (some (.preHighpass 25 2), none)
  else if eqTarget = "Speech" then (some (.preHighpass 80 2), some (.preLowpass 13000 1))
  else if eqTarget = "Broadcast" then (some (.preHighpass 70 2), some (.preLowpass 14000 2))
  else (none, none)

/-- eqGains: the per-band gains collected by `buildEqFilter` in
`src/go-refactor/ui.go` before the extreme-band clamp (target minus
measured RMS, limited to 10 dB either way). -/
def eqGains (bands : List FrequencyBand) (eqTarget : String) : List ℚ :=
  (bands.zip (calculateTargetCurve bands eqTarget)).map
    (fun bt => FreqAnal.eqGain bt.2 bt.1)

/-- buildEqFilter from `src/go-refactor/ui.go`: collects the gains, applies
`clampExtremeEQ`, skips bands whose clamped gain is inside (-0.5, 0.5),
renders the remaining bands and brackets them with the preset high-pass and
low-pass filters; an empty band list or the `Off` target give the empty
chain. -/
def buildEqFilter (bands : List FrequencyBand) (eqTarget : String) : List EqFilterPart :=
  if bands.length = 0 ∨ eqTarget = "Off" then []
  else
    let brackets := presetBrackets eqTarget
    let gains := clampExtremeEQ (eqGains bands eqTarget)
    let filterParts := (bands.zip gains).filterMap
      (fun bg => FreqAnal.eqFilterPart bg.1 bg.2)
    brackets.1.toList ++ filterParts ++ brackets.2.toList

end UI

/-- dbToLinear models `math.Pow(10, db/20)` over the reals (the function
`DbToLinear` of `src/go-refactor/internal/audio/compression.go` and the
inline conversions of the main program). -/
noncomputable def dbToLinear (db : ℝ) : ℝ :=
  (10 : ℝ) ^ (db / 20)

/-- CompressionModifiers mirrors the Go struct of `dynscore.go` and
`compression.go`: multiplicative adjustments applied to a preset's
attack, release and ratio. -/
structure CompressionModifiers where
  AttackMultiplier : ℝ
  ReleaseMultiplier : ℝ
  RatioMultiplier : ℝ

/-- getCompressionModifiers from `src/go/dynscore.go`; the function
`GetCompressionModifiers` of
`src/go-refactor/internal/audio/compression.go` is identical line for
line.  The Go code initializes all three multipliers to 1 and overwrites
them per branch; the branches form an if/else-if chain on the dynamics
score. -/
noncomputable def getCompressionModifiers (ds : ℝ) : CompressionModifiers :=
  if ds < 9 then
    { AttackMultiplier := 4, ReleaseMultiplier := 4, RatioMultiplier := 0.15 }
  else if ds < 15 then
    { AttackMultiplier := 2, ReleaseMultiplier := 2, RatioMultiplier := 2.1 }
  else if ds ≤ 21 then
    { AttackMultiplier := 1, ReleaseMultiplier := 1, RatioMultiplier := 1 }
  else
    let excess := min (ds - 21) 79
    let scaleFactor := 2 + 2 * excess / 79
    { AttackMultiplier := 1 / scaleFactor,
      ReleaseMultiplier := 1 / scaleFactor,
      RatioMultiplier := 4 + 4 * excess / 79 }

/-- ClampCompressorParams from
`src/go-refactor/internal/audio/compression.go`: each parameter is raised
to its floor and lowered to its ceiling by two successive conditionals;
the quintuple is (thresholdLin, ratio, attackMs, releaseMs, makeupLin). -/
noncomputable def ClampCompressorParams (thresholdLin ratio attackMs releaseMs makeupLin : ℝ) :
    ℝ × ℝ × ℝ × ℝ × ℝ :=
  let thresholdLin := if thresholdLin < 0.00097563 then 0.00097563 else thresholdLin
  let thresholdLin := if thresholdLin > 1 then 1 else thresholdLin
  let ratio := if ratio < 1 then 1 else ratio
  let ratio := if ratio > 20 then 20 else ratio
  let attackMs := if attackMs < 0.01 then 0.01 else attackMs
  let attackMs := if attackMs > 2000 then 2000 else attackMs
  let releaseMs := if releaseMs < 0.01 then 0.01 else releaseMs
  let releaseMs := if releaseMs > 9000 then 9000 else releaseMs
  let makeupLin := if makeupLin < 1 then 1 else makeupLin
  let makeupLin := if makeupLin > 64 then 64 else makeupLin
  (thresholdLin, ratio, attackMs, releaseMs, makeupLin)

/-- FrequencyBandAnalysis mirrors the Go struct of the `audio` package
(`src/unnamed/part_004`): per-band statistics for multiband
compression. -/
structure FrequencyBandAnalysis where
  BandName : String
  PeakLevel : ℝ
  RMSLevel : ℝ
  CrestFactor : ℝ
  DynamicRange : ℝ

/-- CompressorSpec carries the numbers printed into the per-band filter
string `acompressor=threshold=..:ratio=..:attack=..:release=..:makeup=1.0:
knee=..,alimiter=limit=..:attack=..:release=..:level=false,volume=..` by
`buildBandAcompressor`.  The `volume` term is the makeup gain; the
fallback branch for a missing band prints no knee value, which is
recorded as the FFmpeg default 4 here. -/
structure CompressorSpec where
  thresholdLin : ℝ
  ratio : ℝ
  attackMs : ℝ
  releaseMs : ℝ
  knee : ℝ
  limiterLin : ℝ
  limiterAttack : ℝ
  limiterRelease : ℝ
  makeupLin : ℝ

/-- buildBandAcompressor from `src/unnamed/part_007` (version 1.3.0 of the
main program): derives one band's compressor and limiter parameters from
the band analysis and the dynamics-score modifiers.  A `none` band takes
the early fallback branch, which emits the requested ratio, attack and
release without any clamping.  Note that `limiterLin` is computed from
`limiterCeilingDb` before the final pre-compressed override; that override
rewrites only `limiterCeilingDb` (which afterwards feeds nothing but the
log line), `limiterAttack` and `limiterRelease`. -/
noncomputable def buildBandAcompressor (band : Option FrequencyBandAnalysis)
    (attackMs releaseMs ratio fallbackThresholdDb : ℝ)
    (mods : CompressionModifiers) : CompressorSpec :=
  match band with
  | none =>
    let thresholdLin := dbToLinear fallbackThresholdDb
    let makeup := dbToLinear 3
    let limiterLin := dbToLinear (-1)
    let limiterLin := if limiterLin > 1 then 1 else limiterLin
    { thresholdLin := thresholdLin, ratio := ratio, attackMs := attackMs,
      releaseMs := releaseMs, knee := 4, limiterLin := limiterLin,
      limiterAttack := 5, limiterRelease := 50, makeupLin := makeup }
  | some band =>
    let adaptiveThresholdDb :=
      if mods.RatioMultiplier < 0.3 then band.PeakLevel - 1
      else
        let thresholdOffset := if mods.RatioMultiplier > 3 then (3 : ℝ) else 6
        band.RMSLevel + thresholdOffset
    let thresholdLin := dbToLinear adaptiveThresholdDb
    let makeupGainDb :=
      if mods.RatioMultiplier < 0.3 then (0 : ℝ)
      else
        let expectedGRDb := (band.RMSLevel - adaptiveThresholdDb) / ratio
        let makeupGainDb := -expectedGRDb * 0.8
        if makeupGainDb < 0 then 0 else makeupGainDb
    let makeupLin := dbToLinear makeupGainDb
    let limiterCeilingDb :=
      if mods.RatioMultiplier < 0.3 then
        let c := band.PeakLevel - 0.1
        if c > 0 then 0 else c
      else band.PeakLevel - 0.8
    let limiterCeilingDb := if limiterCeilingDb < -24 then -24 else limiterCeilingDb
    let limiterLin := dbToLinear limiterCeilingDb
    let limiterLin := if limiterLin > 1 then 1 else limiterLin
    let attackMs := attackMs * mods.AttackMultiplier
    let releaseMs := releaseMs * mods.ReleaseMultiplier
    let ratio := ratio * mods.RatioMultiplier
    let limiterAttack := 25 * mods.AttackMultiplier
    let limiterRelease := 150 * mods.ReleaseMultiplier
    let knee :=
      if ratio < 1 then (1 : ℝ)
      else if ratio < 2 then 2
      else if ratio < 4 then 3
      else if ratio < 8 then 4
      else if ratio < 12 then 6
      else if ratio > 12 then 7.5
      else 4
    let ratio := if ratio < 1 then 1 else ratio
    let knee := if ratio > 20 then (8 : ℝ) else knee
    let ratio := if ratio > 20 then 20 else ratio
    let thresholdLin := if thresholdLin < 0.00099 then 0.00099 else thresholdLin
    let thresholdLin := if thresholdLin > 1 then 1 else thresholdLin
    let attackMs := if attackMs < 0.01 then 0.01 else attackMs
    let attackMs := if attackMs > 2000 then 2000 else attackMs
    let releaseMs := if releaseMs < 0.01 then 0.01 else releaseMs
    let releaseMs := if releaseMs > 9000 then 9000 else releaseMs
    let makeupLin := if makeupLin < 1 then 1 else makeupLin
    let makeupLin := if makeupLin > 64 then 64 else makeupLin
    let limiterAttack := if limiterAttack > 80 then 80 else limiterAttack
    let limiterRelease := if limiterRelease > 8000 then 8000 else limiterRelease
    let limiterAttack := if mods.RatioMultiplier < 0.3 then 80 else limiterAttack
    let limiterRelease := if mods.RatioMultiplier < 0.3 then 2000 else limiterRelease
    { thresholdLin := thresholdLin, ratio := ratio, attackMs := attackMs,
      releaseMs := releaseMs, knee := knee, limiterLin := limiterLin,
      limiterAttack := limiterAttack, limiterRelease := limiterRelease,
      makeupLin := makeupLin }

/-- DynamicsAnalysis mirrors the Go struct of the `audio` package
(`src/unnamed/part_004`): the whole-file statistics parsed from the
engine's astats output. -/
structure DynamicsAnalysis where
  PeakLevel : ℝ
  RMSPeak : ℝ
  RMSTrough : ℝ
  CrestFactor : ℝ
  DynamicRange : ℝ
  RMSLevel : ℝ
  NoiseFloor : ℝ

/-- DynaudnormParams mirrors the Go struct: dynamic-normalization target
and threshold on the linear scale plus the dB inputs kept for
reference. -/
structure DynaudnormParams where
  TargetRMS : ℝ
  Threshold : ℝ
  RMSPeakDB : ℝ
  NoiseFloorDB : ℝ

/-- CalculateDynaudnormParams from `src/unnamed/part_003` (the identical
method `analyzeDynaudnormParams` lives in `src/go/dynscore.go`): a nil
analysis yields nil; otherwise the target RMS is `RMSPeak - 6` dB and the
threshold `NoiseFloor + 12` dB, both converted to linear and clamped into
[0, 1] by two successive conditionals each. -/
noncomputable def CalculateDynaudnormParams (analysis : Option DynamicsAnalysis) :
    Option DynaudnormParams :=
  match analysis with
  | none => none
  | some a =>
    let targetDB := a.RMSPeak - 6
    let targetRMS := dbToLinear targetDB
    let thresholdDB := a.NoiseFloor + 12
    let threshold := dbToLinear thresholdDB
    let targetRMS := if targetRMS < 0 then 0 else targetRMS
    let targetRMS := if targetRMS > 1 then 1 else targetRMS
    let threshold := if threshold < 0 then 0 else threshold
    let threshold := if threshold > 1 then 1 else threshold
    some { TargetRMS := targetRMS, Threshold := threshold,
           RMSPeakDB := a.RMSPeak, NoiseFloorDB := a.NoiseFloor }

/-- ReplayGainTags: the three metadata values appended by the tag block of
`processFile` (REPLAYGAIN_TRACK_GAIN in dB, REPLAYGAIN_TRACK_PEAK on the
linear scale, REPLAYGAIN_REFERENCE_LOUDNESS in LUFS). -/
structure ReplayGainTags where
  gainDb : ℝ
  peakLin : ℝ
  refLoudness : ℝ

/-- replayGainTags models the tag-writing block of `processFile` in
`src/unnamed/part_007` (the same block appears in `src/main.go`): the
measured true peak (`input_tp`) parses to `some tp` or falls back to a
linear peak of 1.0 when missing or unparseable; the measured integrated
loudness (`input_i`) is parsed with the error ignored, so a missing value
reads as 0; the gain is the loudness target minus the measured integrated
loudness and the peak is the measured true peak converted to linear. -/
noncomputable def replayGainTags (target : ℝ) (inputI inputTp : Option ℝ) : ReplayGainTags :=
  let rgTpInLin :=
    match inputTp with
    | none => (1 : ℝ)
    | some tp => dbToLinear tp
  let inputI := inputI.getD 0
  let gain := target - inputI
  { gainDb := gain, peakLin := rgTpInLin, refLoudness := target }

/-- ProcessConfig: the fields of the Go `ProcessConfig` that steer the
control flow of `processFile` in `src/unnamed/part_007`. -/
structure ProcessConfig where
  EqTarget : String
  DynamicsPreset : String
  bypassProc : Bool
  DynNorm : Bool
  UseLoudnorm : Bool
  writeTags : Bool

/-- Stage names one external-engine invocation site of `processFile`
(analysis, transformation, measurement or encode). -/
inductive Stage where
  | eqAnalysis
  | eqApply
  | dsCalc
  | dynAnalysis
  | dynApply
  | dynMeasureLoudnorm
  | dynMeasureTags
  | attenApply
  | bandAnalysis
  | sbcAnalysis
  | compApply
  | measureLoudnorm
  | measureTags
  | encode
deriving DecidableEq, Repr

/-- TempKind names the temp artifacts `processFile` can append to its
`tempFiles` list (`tnt_eq_*.wav`, `tnt_dyn_*.wav`, `tnt_atten_*.wav`,
`tnt_comp_*.wav`). -/
inductive TempKind where
  | eqTemp
  | dynTemp
  | attenTemp
  | compTemp
deriving DecidableEq, Repr

/-- EngineOutcomes abstracts the external audio engine: the success of each
invocation `processFile` may enter, and the data-dependent values the
control flow reads (whether the built EQ filter string is nonempty, and
the parsed peak level of the multiband pre-check, `none` when the peak
regex does not match). -/
structure EngineOutcomes where
  eqAnalysisOk : Bool
  eqFilterNonempty : Bool
  eqApplyOk : Bool
  dsOk : Bool
  dynAnalysisOk : Bool
  dynApplyOk : Bool
  dynMeasureLoudnormOk : Bool
  dynMeasureTagsOk : Bool
  peakLevel : Option ℚ
  attenApplyOk : Bool
  bandAnalysisOk : Bool
  sbcAnalysisOk : Bool
  compApplyOk : Bool
  measureLoudnormOk : Bool
  measureTagsOk : Bool
  encodeOk : Bool

/-- RunResult: what one run of `processFile` did: the boolean it returned,
whether the final encode produced the output file, the temp artifacts
appended to `tempFiles` during the run, the list handed to
`cleanupTempFiles` by the deferred call on exit, and the failure records
logged (one `logStatus` failure line per aborted stage). -/
structure RunResult where
  success : Bool
  outputWritten : Bool
  temps : List TempKind
  cleaned : List TempKind
  failures : List Stage
deriving DecidableEq, Repr

/-- abortRun: what a `return false` of `processFile` leaves behind: the
deferred `cleanupTempFiles(tempFiles)` receives the whole accumulated
list, no output file exists, and exactly one failure record was logged. -/
def abortRun (temps : List TempKind) (s : Stage) : RunResult :=
  { success := false, outputWritten := false, temps := temps,
    cleaned := temps, failures := [s] }

/-- processFile models the control flow of `processFile` in
`src/unnamed/part_007` (version 1.3.0): the staged pipeline over the
working path.  Stage 1 runs EQ analysis and application when an EQ target
is selected and bypass is off; the dynamics score is computed when a
dynamics preset is selected; stage 2 runs dynamic normalization (and,
when it applied, measures loudness early for the requested mode); stage 3
runs the attenuation pre-pass (Broadcast preset with a hot parsed peak)
and single- or multi-band compression; stage 4 measures loudness; the
final invocation encodes the output.  Every failed invocation returns
false at once; the deferred cleanup always receives the accumulated temp
list.  The Go helpers guarantee a nonempty dynaudnorm filter for a
non-nil analysis and a nonempty compression filter for a successful
analysis, so those strings are not part of the oracle. -/
def processFile (cfg : ProcessConfig) (o : EngineOutcomes) : RunResult :=
  let temps : List TempKind := []
  -- Stage 1: EQ analysis and application
  if cfg.EqTarget ≠ "" ∧ cfg.EqTarget ≠ "Off" ∧ !cfg.bypassProc then
    if !o.eqAnalysisOk then abortRun temps .eqAnalysis
    else
      let temps := if o.eqFilterNonempty then temps ++ [TempKind.eqTemp] else temps
      if o.eqFilterNonempty ∧ !o.eqApplyOk then abortRun temps .eqApply
      else processFileFromDs cfg o temps
  else processFileFromDs cfg o temps
where
  /-- the dynamics-score step and everything after it -/
  processFileFromDs (cfg : ProcessConfig) (o : EngineOutcomes)
      (temps : List TempKind) : RunResult :=
    if (!cfg.bypassProc ∧ cfg.DynamicsPreset ≠ "" ∧ cfg.DynamicsPreset ≠ "Off")
        ∧ !o.dsOk then
      abortRun temps .dsCalc
    else processFileFromDynNorm cfg o temps
  /-- stage 2: dynamic normalization, with the early loudness measurement -/
  processFileFromDynNorm (cfg : ProcessConfig) (o : EngineOutcomes)
      (temps : List TempKind) : RunResult :=
    if cfg.DynNorm ∧ !cfg.bypassProc then
      if !o.dynAnalysisOk then abortRun temps .dynAnalysis
      else
        let temps := temps ++ [TempKind.dynTemp]
        if !o.dynApplyOk then abortRun temps .dynApply
        else if cfg.UseLoudnorm ∧ !o.dynMeasureLoudnormOk then
          abortRun temps .dynMeasureLoudnorm
        else if cfg.writeTags ∧ !o.dynMeasureTagsOk then
          abortRun temps .dynMeasureTags
        else processFileFromDynamics cfg o temps
    else processFileFromDynamics cfg o temps
  /-- stage 3: attenuation pre-pass and compression -/
  processFileFromDynamics (cfg : ProcessConfig) (o : EngineOutcomes)
      (temps : List TempKind) : RunResult :=
    if cfg.DynamicsPreset ≠ "" ∧ cfg.DynamicsPreset ≠ "Off" ∧ !cfg.bypassProc then
      if decide (cfg.DynamicsPreset = "Broadcast") &&
          (match o.peakLevel with
           | some p => decide (p > -5)
           | none => false) then
        let temps := temps ++ [TempKind.attenTemp]
        if !o.attenApplyOk then abortRun temps .attenApply
        else processFileFromCompression cfg o temps
      else processFileFromCompression cfg o temps
    else processFileFromMeasure cfg o temps
  /-- the band or whole-file analysis and the compression application -/
  processFileFromCompression (cfg : ProcessConfig) (o : EngineOutcomes)
      (temps : List TempKind) : RunResult :=
    if cfg.DynamicsPreset = "Broadcast" ∧ !o.bandAnalysisOk then
      abortRun temps .bandAnalysis
    else if cfg.DynamicsPreset ≠ "Broadcast" ∧ !o.sbcAnalysisOk then
      abortRun temps .sbcAnalysis
    else
      let temps := temps ++ [TempKind.compTemp]
      if !o.compApplyOk then abortRun temps .compApply
      else processFileFromMeasure cfg o temps
  /-- stage 4: loudness measurement and the final encode -/
  processFileFromMeasure (cfg : ProcessConfig) (o : EngineOutcomes)
      (temps : List TempKind) : RunResult :=
    if cfg.UseLoudnorm ∧ !o.measureLoudnormOk then abortRun temps .measureLoudnorm
    else if cfg.writeTags ∧ !o.measureTagsOk then abortRun temps .measureTags
    else if !o.encodeOk then abortRun temps .encode
    else
      { success := true, outputWritten := true, temps := temps,
        cleaned := temps, failures := [] }

/-- uniformBands: the ten analysis bands all measured at RMS = -20 dB
(the input of the Flat-preset scenario). -/
def uniformBands : List FrequencyBand := standardBands (List.replicate 10 (-20))

/-- speechClampBands: a synthetic 10-band analysis for the Speech preset
whose derived gains are (10, 10, m, m, m, m, m, m, -10, 10) with
m = -3193/600; the overall RMS of these levels is 0, so the refactored
speech target curve yields exactly those gains. -/
def speechClampBands : List FrequencyBand :=
  standardBands
    [-16.04, -13.54, 4531/300, 3481/300, 3631/300, 3481/300, 1981/300, 781/300, 6.96, -37]

/-- modsVeryCompressed: the compression modifiers the dynamics score
engine returns for a score below 9 (ratio multiplier 0.15 < 0.3, the
pre-compressed case of the band compressor). -/
def modsVeryCompressed : CompressionModifiers :=
  { AttackMultiplier := 4, ReleaseMultiplier := 4, RatioMultiplier := 0.15 }

/-- bandPeakMinus10: a band analysis with a -10 dB peak, used to evaluate
the pre-compressed limiter branch of `buildBandAcompressor`. -/
def bandPeakMinus10 : FrequencyBandAnalysis :=
  { BandName := "sub", PeakLevel := -10, RMSLevel := -20, CrestFactor := 8,
    DynamicRange := 30 }

/-- zeroAnalysis: the all-zero dynamics analysis (every level at 0 dB). -/
def zeroAnalysis : DynamicsAnalysis :=
  { PeakLevel := 0, RMSPeak := 0, RMSTrough := 0, CrestFactor := 0,
    DynamicRange := 0, RMSLevel := 0, NoiseFloor := 0 }

/-- zeroDynParams: the dynaudnorm parameters derived from `zeroAnalysis`:
the target is 10^(-6/20) (about 0.501, inside [0, 1]) and the threshold
10^(12/20) (about 3.98) clamps to 1. -/
noncomputable def zeroDynParams : DynaudnormParams :=
  { TargetRMS := dbToLinear (-6), Threshold := 1, RMSPeakDB := 0, NoiseFloorDB := 0 }

/-- tagOnlyConfig: a tag-only processing request (no loudness
normalization, tags requested) with every optional shaping stage
enabled. -/
def tagOnlyConfig : ProcessConfig :=
  { EqTarget := "Flat", DynamicsPreset := "Broadcast", bypassProc := false,
    DynNorm := false, UseLoudnorm := false, writeTags := true }

/-- eqFailureOutcomes: every engine invocation succeeds except the EQ
application (the stage-application failure of the EQ rendering
scenario). -/
def eqFailureOutcomes : EngineOutcomes :=
  { eqAnalysisOk := true, eqFilterNonempty := true, eqApplyOk := false,
    dsOk := true, dynAnalysisOk := true, dynApplyOk := true,
    dynMeasureLoudnormOk := true, dynMeasureTagsOk := true,
    peakLevel := some (-3), attenApplyOk := true, bandAnalysisOk := true,
    sbcAnalysisOk := true, compApplyOk := true, measureLoudnormOk := true,
    measureTagsOk := true, encodeOk := true }

/-- GoodRun: the run invariants of `processFile` under scrutiny: the
deferred cleanup receives exactly the accumulated temp list, the output
file exists exactly when the run reports success, success means no stage
failed, and at most one failure is recorded (the run aborts at the first
one). -/
def GoodRun (r : RunResult) : Prop :=
  r.cleaned = r.temps ∧ r.outputWritten = r.success ∧
  (r.success = true ↔ r.failures = []) ∧ r.failures.length ≤ 1

/-! ## Theorems -/

open Topology Filter

/-- clampPair_bounds: the floor-then-ceiling conditional pair used
throughout the compression code keeps its result inside [lo, hi]. -/
theorem clampPair_bounds (v lo hi : ℝ) (h : lo ≤ hi) :
    lo ≤ (if (if v < lo then lo else v) > hi then hi else (if v < lo then lo else v)) ∧
    (if (if v < lo then lo else v) > hi then hi else (if v < lo then lo else v)) ≤ hi := by
  split_ifs <;> constructor <;> linarith

/-- clamp01_chain: the [0, 1] clamp of the dynaudnorm code written as two
conditionals equals the min/max form. -/
theorem clamp01_chain (x : ℝ) :
    (if (if x < 0 then 0 else x) > 1 then 1 else (if x < 0 then 0 else x)) =
      min 1 (max 0 x) := by
  rcases lt_or_le x 0 with h0 | h0
  · rw [if_pos h0, if_neg (by norm_num), max_eq_left h0.le, min_eq_right (by norm_num)]
  · rw [if_neg (not_lt.mpr h0), max_eq_right h0]
    rcases le_or_lt x 1 with h1 | h1
    · rw [if_neg (not_lt.mpr h1), min_eq_right h1]
    · rw [if_pos h1, min_eq_left h1.le]

/-- dbToLinear_pos: converting any dB value to the linear scale gives a
strictly positive number. -/
theorem dbToLinear_pos (db : ℝ) : 0 < dbToLinear db :=
  Real.rpow_pos_of_pos (by norm_num) _

/-- dbToLinear_lt_one_of_neg: a negative dB value converts to a linear
value below 1. -/
theorem dbToLinear_lt_one_of_neg (db : ℝ) (h : db < 0) : dbToLinear db < 1 :=
  Real.rpow_lt_one_of_one_lt_of_neg (by norm_num) (by linarith)

/-- C3: the compression-modifier mapping returns attack x4, release x4,
ratio x0.15 for scores below 9; attack x2, release x2, ratio x2.1 for
scores in [9, 15); exactly (1, 1, 1) on [15, 21] and in particular at 21;
and above 21 it uses excess = min(score - 21, 79), attack and release
multipliers 1/(2 + 2 excess/79) and ratio multiplier 4 + 4 excess/79,
which caps at 8 from score 100 on; the branch conditions at 9 and 15 do
not overlap. -/
theorem getCompressionModifiers_branches (ds : ℝ) :
    (ds < 9 → getCompressionModifiers ds =
      { AttackMultiplier := 4, ReleaseMultiplier := 4, RatioMultiplier := 0.15 }) ∧
    (9 ≤ ds → ds < 15 → getCompressionModifiers ds =
      { AttackMultiplier := 2, ReleaseMultiplier := 2, RatioMultiplier := 2.1 }) ∧
    (15 ≤ ds → ds ≤ 21 → getCompressionModifiers ds =
      { AttackMultiplier := 1, ReleaseMultiplier := 1, RatioMultiplier := 1 }) ∧
    getCompressionModifiers 21 =
      { AttackMultiplier := 1, ReleaseMultiplier := 1, RatioMultiplier := 1 } ∧
    (21 < ds →
      (getCompressionModifiers ds).AttackMultiplier = 1 / (2 + 2 * min (ds - 21) 79 / 79) ∧
      (getCompressionModifiers ds).ReleaseMultiplier = 1 / (2 + 2 * min (ds - 21) 79 / 79) ∧
      (getCompressionModifiers ds).RatioMultiplier = 4 + 4 * min (ds - 21) 79 / 79) ∧
    (getCompressionModifiers 100).RatioMultiplier = 8 ∧
    (100 ≤ ds → (getCompressionModifiers ds).RatioMultiplier = 8) ∧
    ¬(ds < 9 ∧ 9 ≤ ds ∧ ds < 15) ∧ ¬((9 ≤ ds ∧ ds < 15) ∧ 15 ≤ ds ∧ ds ≤ 21) := by
  refine ⟨?_, ?_, ?_, ?_, ?_, ?_, ?_, ?_, ?_⟩
  · intro h
    rw [getCompressionModifiers, if_pos h]
  · intro h9 h15
    rw [getCompressionModifiers, if_neg (not_lt.mpr h9), if_pos h15]
  · intro h15 h21
    rw [getCompressionModifiers, if_neg (by linarith), if_neg (not_lt.mpr h15), if_pos h21]
  · rw [getCompressionModifiers, if_neg (by norm_num), if_neg (by norm_num),
      if_pos (by norm_num)]
  · intro h
    rw [getCompressionModifiers, if_neg (by linarith), if_neg (by linarith),
      if_neg (not_le.mpr h)]
    exact ⟨rfl, rfl, rfl⟩
  · rw [getCompressionModifiers, if_neg (by norm_num), if_neg (by norm_num),
      if_neg (by norm_num)]
    norm_num
  · intro h
    rw [getCompressionModifiers, if_neg (by linarith), if_neg (by linarith),
      if_neg (by push_neg; linarith)]
    have : min (ds - 21) 79 = 79 := min_eq_right (by linarith)
    simp only [this]
    norm_num
  · rintro ⟨h1, h2, -⟩
    exact absurd h1 (not_lt.mpr h2)
  · rintro ⟨⟨-, h2⟩, h3, -⟩
    exact absurd h2 (not_lt.mpr h3)

/-- C4 counterexample: the ratio multiplier jumps from 0.15 to 2.1 at
score 9, so the compression-modifier mapping is not continuous there and
the claim of continuity on all non-negative scores fails at the concrete
point 9. -/
theorem getCompressionModifiers_ratio_discontinuous_at_nine :
    ¬ ContinuousAt (fun ds : ℝ => (getCompressionModifiers ds).RatioMultiplier) 9 := by
  intro h
  rw [Metric.continuousAt_iff] at h
  obtain ⟨δ, hδ, hb⟩ := h 1 one_pos
  have hmpos : 0 < min (δ / 2) 1 := lt_min (by linarith) one_pos
  have hx9 : 9 - min (δ / 2) 1 < 9 := by linarith
  have hdist : dist (9 - min (δ / 2) 1) (9 : ℝ) < δ := by
    rw [Real.dist_eq, abs_of_nonpos (by linarith)]
    have h1 : min (δ / 2) 1 ≤ δ / 2 := min_le_left _ _
    linarith
  have hlt := hb hdist
  have hfx : (getCompressionModifiers (9 - min (δ / 2) 1)).RatioMultiplier = 0.15 := by
    rw [getCompressionModifiers, if_pos hx9]
  have hf9 : (getCompressionModifiers (9 : ℝ)).RatioMultiplier = 2.1 := by
    rw [getCompressionModifiers, if_neg (by norm_num), if_pos (by norm_num)]
  rw [hfx, hf9, Real.dist_eq, abs_of_nonpos (by norm_num)] at hlt
  norm_num at hlt

/-- C4 amended: the compression-modifier mapping is a total deterministic
function of the score (it is a Lean function of `ds`), continuous at every
score other than the branch boundaries 9, 15 and 21, where it has jump
discontinuities. -/
theorem getCompressionModifiers_continuous_off_breakpoints (ds : ℝ)
    (h9 : ds ≠ 9) (h15 : ds ≠ 15) (h21 : ds ≠ 21) :
    ContinuousAt (fun x => (getCompressionModifiers x).AttackMultiplier) ds ∧
    ContinuousAt (fun x => (getCompressionModifiers x).ReleaseMultiplier) ds ∧
    ContinuousAt (fun x => (getCompressionModifiers x).RatioMultiplier) ds := by
  rcases lt_trichotomy ds 9 with hA | hA | hA
  · -- below 9 the mapping is locally the constant (4, 4, 0.15)
    have hev : ∀ᶠ x in 𝓝 ds, getCompressionModifiers x =
        { AttackMultiplier := 4, ReleaseMultiplier := 4, RatioMultiplier := 0.15 } := by
      filter_upwards [eventually_lt_nhds hA] with x hx
      rw [getCompressionModifiers, if_pos hx]
    have heva : (fun x => (getCompressionModifiers x).AttackMultiplier) =ᶠ[𝓝 ds]
        (fun _ => (4 : ℝ)) := hev.mono fun x hx => by simp only [hx]
    have hevr : (fun x => (getCompressionModifiers x).ReleaseMultiplier) =ᶠ[𝓝 ds]
        (fun _ => (4 : ℝ)) := hev.mono fun x hx => by simp only [hx]
    have hevq : (fun x => (getCompressionModifiers x).RatioMultiplier) =ᶠ[𝓝 ds]
        (fun _ => (0.15 : ℝ)) := hev.mono fun x hx => by simp only [hx]
    exact ⟨heva.continuousAt, hevr.continuousAt, hevq.continuousAt⟩
  · exact absurd hA h9
  rcases lt_trichotomy ds 15 with hB | hB | hB
  · -- on (9, 15) the mapping is locally the constant (2, 2, 2.1)
    have hev : ∀ᶠ x in 𝓝 ds, getCompressionModifiers x =
        { AttackMultiplier := 2, ReleaseMultiplier := 2, RatioMultiplier := 2.1 } := by
      filter_upwards [eventually_gt_nhds hA, eventually_lt_nhds hB] with x hx1 hx2
      rw [getCompressionModifiers, if_neg (by linarith), if_pos hx2]
    have heva : (fun x => (getCompressionModifiers x).AttackMultiplier) =ᶠ[𝓝 ds]
        (fun _ => (2 : ℝ)) := hev.mono fun x hx => by simp only [hx]
    have hevr : (fun x => (getCompressionModifiers x).ReleaseMultiplier) =ᶠ[𝓝 ds]
        (fun _ => (2 : ℝ)) := hev.mono fun x hx => by simp only [hx]
    have hevq : (fun x => (getCompressionModifiers x).RatioMultiplier) =ᶠ[𝓝 ds]
        (fun _ => (2.1 : ℝ)) := hev.mono fun x hx => by simp only [hx]
    exact ⟨heva.continuousAt, hevr.continuousAt, hevq.continuousAt⟩
  · exact absurd hB h15
  rcases lt_trichotomy ds 21 with hC | hC | hC
  · -- on (15, 21) the mapping is locally the constant (1, 1, 1)
    have hev : ∀ᶠ x in 𝓝 ds, getCompressionModifiers x =
        { AttackMultiplier := 1, ReleaseMultiplier := 1, RatioMultiplier := 1 } := by
      filter_upwards [eventually_gt_nhds hB, eventually_lt_nhds hC] with x hx1 hx2
      rw [getCompressionModifiers, if_neg (by linarith), if_neg (by linarith),
        if_pos (by linarith)]
    have heva : (fun x => (getCompressionModifiers x).AttackMultiplier) =ᶠ[𝓝 ds]
        (fun _ => (1 : ℝ)) := hev.mono fun x hx => by simp only [hx]
    have hevr : (fun x => (getCompressionModifiers x).ReleaseMultiplier) =ᶠ[𝓝 ds]
        (fun _ => (1 : ℝ)) := hev.mono fun x hx => by simp only [hx]
    have hevq : (fun x => (getCompressionModifiers x).RatioMultiplier) =ᶠ[𝓝 ds]
        (fun _ => (1 : ℝ)) := hev.mono fun x hx => by simp only [hx]
    exact ⟨heva.continuousAt, hevr.continuousAt, hevq.continuousAt⟩
  · exact absurd hC h21
  · -- above 21 the mapping locally follows the capped linear-scaling branch
    have hmin : Continuous fun x : ℝ => min (x - 21) 79 :=
      (continuous_id.sub continuous_const).min continuous_const
    have hden : Continuous fun x : ℝ => 2 + 2 * min (x - 21) 79 / 79 :=
      continuous_const.add ((continuous_const.mul hmin).div_const 79)
    have hdenpos : (0 : ℝ) < 2 + 2 * min (ds - 21) 79 / 79 := by
      have hm : 0 < min (ds - 21) 79 := lt_min (by linarith) (by norm_num)
      positivity
    have hattack : ContinuousAt (fun x : ℝ => 1 / (2 + 2 * min (x - 21) 79 / 79)) ds :=
      ContinuousAt.div continuousAt_const hden.continuousAt (ne_of_gt hdenpos)
    have hratio : ContinuousAt (fun x : ℝ => 4 + 4 * min (x - 21) 79 / 79) ds :=
      (continuous_const.add ((continuous_const.mul hmin).div_const 79)).continuousAt
    have hev : ∀ᶠ x in 𝓝 ds, getCompressionModifiers x =
        { AttackMultiplier := 1 / (2 + 2 * min (x - 21) 79 / 79),
          ReleaseMultiplier := 1 / (2 + 2 * min (x - 21) 79 / 79),
          RatioMultiplier := 4 + 4 * min (x - 21) 79 / 79 } := by
      filter_upwards [eventually_gt_nhds hC] with x hx
      rw [getCompressionModifiers, if_neg (by linarith), if_neg (by linarith),
        if_neg (by push_neg; linarith)]
    have heva : (fun x : ℝ => 1 / (2 + 2 * min (x - 21) 79 / 79)) =ᶠ[𝓝 ds]
        (fun x => (getCompressionModifiers x).AttackMultiplier) :=
      hev.mono fun x hx => by simp only [hx]
    have hevr : (fun x : ℝ => 1 / (2 + 2 * min (x - 21) 79 / 79)) =ᶠ[𝓝 ds]
        (fun x => (getCompressionModifiers x).ReleaseMultiplier) :=
      hev.mono fun x hx => by simp only [hx]
    have hevq : (fun x : ℝ => 4 + 4 * min (x - 21) 79 / 79) =ᶠ[𝓝 ds]
        (fun x => (getCompressionModifiers x).RatioMultiplier) :=
      hev.mono fun x hx => by simp only [hx]
    exact ⟨hattack.congr heva, hattack.congr hevr, hratio.congr hevq⟩

/-- C4 amended witness: at the concrete score 5 all three multiplier
components are continuous. -/
theorem getCompressionModifiers_continuous_off_breakpoints_witness :
    ContinuousAt (fun x => (getCompressionModifiers x).AttackMultiplier) 5 ∧
    ContinuousAt (fun x => (getCompressionModifiers x).ReleaseMultiplier) 5 ∧
    ContinuousAt (fun x => (getCompressionModifiers x).RatioMultiplier) 5 :=
  getCompressionModifiers_continuous_off_breakpoints 5 (by norm_num) (by norm_num)
    (by norm_num)

/-- clampShelf_mem: when the derived range is nonempty, the clamped shelf
value lies inside it. -/
theorem clampShelf_mem (v lo hi : ℚ) (h : lo ≤ hi) :
    lo ≤ UI.clampShelf v (lo, hi) ∧ UI.clampShelf v (lo, hi) ≤ hi := by
  unfold UI.clampShelf
  split_ifs with h1 h2 <;> constructor <;> simp_all

/-- shelfRange_subset: any value inside the most-restrictive range of one
shelf is within 4 dB of the other shelf and of the inner neighbor, and on
the correct side of the non-extreme average. -/
theorem shelfRange_subset (other neighbor avg x : ℚ)
    (hx1 : (UI.shelfRange other neighbor avg).1 ≤ x)
    (hx2 : x ≤ (UI.shelfRange other neighbor avg).2) :
    |x - other| ≤ 4 ∧ |x - neighbor| ≤ 4 ∧
    (0 ≤ avg → x ≤ avg) ∧ (avg < 0 → avg ≤ x) := by
  unfold UI.shelfRange at hx1 hx2
  simp only [max_le_iff, le_min_iff] at hx1 hx2
  obtain ⟨⟨h1, h2⟩, h3⟩ := hx1
  obtain ⟨⟨h4, h5⟩, h6⟩ := hx2
  refine ⟨abs_sub_le_iff.mpr ⟨by linarith, by linarith⟩,
    abs_sub_le_iff.mpr ⟨by linarith, by linarith⟩, ?_, ?_⟩
  · intro havg
    rwa [if_pos havg] at h6
  · intro havg
    rwa [if_neg (not_le.mpr havg)] at h3

/-- C1 counterexample: a synthetic 10-band Speech-preset analysis whose
emitted chain contains a low shelf at +10 dB and a high shelf at -6 dB:
16 dB apart, so the claimed |low - high| <= 4 dB clamp guarantee fails (the
high-shelf range was empty, its lower limit 6 above its upper limit -6, and
the clamp pinned the high shelf to the upper limit without re-checking the
low value). -/
theorem clampExtremeEQ_shelves_counterexample :
    EqFilterPart.lowshelf 50 10 ∈ UI.buildEqFilter speechClampBands "Speech" ∧
    EqFilterPart.highshelf 12800 (-6) ∈ UI.buildEqFilter speechClampBands "Speech" ∧
    ¬(|(10 : ℚ) - (-6)| ≤ 4) := by
  refine ⟨?_, ?_, ?_⟩
  · norm_num +decide [UI.buildEqFilter, UI.calculateTargetCurve, UI.correctionTarget,
      UI.speechAdjustment, UI.getOctavesFrom1k, UI.clampExtremeEQ, UI.innerAvg,
      UI.shelfRange, UI.clampShelf, UI.presetBrackets, UI.eqGains,
      FreqAnal.overallRMS, FreqAnal.eqGain, FreqAnal.eqFilterPart, getBandpassParams,
      speechClampBands, standardBands,
      List.zip_cons_cons, List.map_cons, List.map_nil, List.sum_cons, List.sum_nil,
      List.filterMap_cons, List.filterMap_nil, List.length_cons, List.length_nil,
      List.zip_nil_right, List.headI, List.getLastI, List.dropLast, List.set]
  · norm_num +decide [UI.buildEqFilter, UI.calculateTargetCurve, UI.correctionTarget,
      UI.speechAdjustment, UI.getOctavesFrom1k, UI.clampExtremeEQ, UI.innerAvg,
      UI.shelfRange, UI.clampShelf, UI.presetBrackets, UI.eqGains,
      FreqAnal.overallRMS, FreqAnal.eqGain, FreqAnal.eqFilterPart, getBandpassParams,
      speechClampBands, standardBands,
      List.zip_cons_cons, List.map_cons, List.map_nil, List.sum_cons, List.sum_nil,
      List.filterMap_cons, List.filterMap_nil, List.length_cons, List.length_nil,
      List.zip_nil_right, List.headI, List.getLastI, List.dropLast, List.set]
  · rw [abs_of_nonneg (by norm_num)]
    norm_num

/-- C1 amended: for ten per-band gains, with the low shelf resolved first
and the high shelf bounded against the already-clamped low value, the
clamped extreme gains satisfy every rule of the extreme-band clamp
PROVIDED the most-restrictive ranges are nonempty: the extremes differ by
at most 4 dB, each extreme is within 4 dB of its inner neighbor, and each
extreme is at most the non-extreme average when that average is
nonnegative and at least it when negative; the inner eight gains pass
through unchanged.  (With an empty range the code clamps to the upper
limit without re-checking the lower rules, which is what the
counterexample exploits.) -/
theorem clampExtremeEQ_clamped_bounds
    (g0 g1 g2 g3 g4 g5 g6 g7 g8 g9 avg L H lowLo lowHi highLo highHi : ℚ)
    (havg : avg = UI.innerAvg [g0, g1, g2, g3, g4, g5, g6, g7, g8, g9])
    (hlowR : (lowLo, lowHi) = UI.shelfRange g9 g1 avg)
    (hL : L = UI.clampShelf g0 (lowLo, lowHi))
    (hhighR : (highLo, highHi) = UI.shelfRange L g8 avg)
    (hH : H = UI.clampShelf g9 (highLo, highHi))
    (hlowNE : lowLo ≤ lowHi) (hhighNE : highLo ≤ highHi) :
    UI.clampExtremeEQ [g0, g1, g2, g3, g4, g5, g6, g7, g8, g9] =
      [L, g1, g2, g3, g4, g5, g6, g7, g8, H] ∧
    |L - H| ≤ 4 ∧ |L - g1| ≤ 4 ∧ |H - g8| ≤ 4 ∧
    (0 ≤ avg → L ≤ avg ∧ H ≤ avg) ∧ (avg < 0 → avg ≤ L ∧ avg ≤ H) := by
  have hLmem := clampShelf_mem g0 lowLo lowHi hlowNE
  have hHmem := clampShelf_mem g9 highLo highHi hhighNE
  rw [← hL] at hLmem
  rw [← hH] at hHmem
  have hlow1 : (UI.shelfRange g9 g1 avg).1 = lowLo := by rw [← hlowR]
  have hlow2 : (UI.shelfRange g9 g1 avg).2 = lowHi := by rw [← hlowR]
  have hhigh1 : (UI.shelfRange L g8 avg).1 = highLo := by rw [← hhighR]
  have hhigh2 : (UI.shelfRange L g8 avg).2 = highHi := by rw [← hhighR]
  have hLsub := shelfRange_subset g9 g1 avg L
    (by rw [hlow1]; exact hLmem.1) (by rw [hlow2]; exact hLmem.2)
  have hHsub := shelfRange_subset L g8 avg H
    (by rw [hhigh1]; exact hHmem.1) (by rw [hhigh2]; exact hHmem.2)
  refine ⟨?_, ?_, hLsub.2.1, hHsub.2.1, ?_, ?_⟩
  · show UI.clampExtremeEQ [g0, g1, g2, g3, g4, g5, g6, g7, g8, g9] = _
    rw [UI.clampExtremeEQ, if_neg (by norm_num)]
    simp only [List.headI, List.getLastI, List.dropLast, List.drop, List.set,
      List.length_cons, List.length_nil]
    rw [← havg, ← hlowR, ← hL, ← hhighR, ← hH]
  · rw [abs_sub_comm] at hHsub
    exact hHsub.1
  · intro h
    exact ⟨hLsub.2.2.1 h, hHsub.2.2.1 h⟩
  · intro h
    exact ⟨hLsub.2.2.2 h, hHsub.2.2.2 h⟩

/-- C1 amended witness: with all ten gains 0 both ranges are nonempty
([-4, 0] each) and the clamp returns the gains unchanged, satisfying every
rule. -/
theorem clampExtremeEQ_clamped_bounds_witness :
    UI.clampExtremeEQ [0, 0, 0, 0, 0, 0, 0, 0, 0, 0] =
      [0, 0, 0, 0, 0, 0, 0, 0, 0, (0 : ℚ)] ∧
    |(0 : ℚ) - 0| ≤ 4 ∧ |(0 : ℚ) - 0| ≤ 4 ∧ |(0 : ℚ) - 0| ≤ 4 ∧
    ((0 : ℚ) ≤ 0 → (0 : ℚ) ≤ 0 ∧ (0 : ℚ) ≤ 0) ∧
    ((0 : ℚ) < 0 → (0 : ℚ) ≤ 0 ∧ (0 : ℚ) ≤ 0) :=
  clampExtremeEQ_clamped_bounds 0 0 0 0 0 0 0 0 0 0 0 0 0 (-4) 0 (-4) 0
    (by norm_num [UI.innerAvg])
    (by norm_num [UI.shelfRange])
    (by norm_num [UI.clampShelf])
    (by norm_num [UI.shelfRange])
    (by norm_num [UI.clampShelf])
    (by norm_num) (by norm_num)

/-- C5 counterexample: with the Flat preset and all ten bands at
RMS = -20 dB, `buildEqFilter` does NOT return an empty filter chain: under
the bass-heavy reference `overallRMS - 3 * octaves` the five bands above
1 kHz sit above the curve and receive attenuation filters. -/
theorem flatPreset_uniform_chain_counterexample :
    ¬(FreqAnal.buildEqFilter uniformBands "Flat" = []) := by
  norm_num +decide [FreqAnal.buildEqFilter, FreqAnal.calculateTargetCurve,
    FreqAnal.overallRMS, FreqAnal.flatTarget, FreqAnal.eqGain, FreqAnal.eqFilterPart,
    FreqAnal.getOctavesFrom1k, getBandpassParams, uniformBands, standardBands,
    List.replicate, List.zip_cons_cons, List.map_cons, List.map_nil, List.sum_cons,
    List.sum_nil, List.filterMap_cons, List.filterMap_nil, List.length_cons,
    List.length_nil, List.zip_nil_right]

/-- C5 amended: with the Flat preset and all ten bands at RMS = -20 dB the
overall RMS is -20 dB; no band sits exactly on the pink-noise reference:
the five bands at or below 800 Hz sit strictly below it (and are left
untouched) while the five bands above 1 kHz sit strictly above it, so the
correction set is the five high bands and the emitted chain is their four
anequalizer filters and a -6.75 dB high shelf. -/
theorem flatPreset_uniform_bands_eval :
    FreqAnal.overallRMS uniformBands = -20 ∧
    ((-20 : ℚ) < -20 - FreqAnal.getOctavesFrom1k "50Hz" * 3 ∧
     (-20 : ℚ) < -20 - FreqAnal.getOctavesFrom1k "100Hz" * 3 ∧
     (-20 : ℚ) < -20 - FreqAnal.getOctavesFrom1k "200Hz" * 3 ∧
     (-20 : ℚ) < -20 - FreqAnal.getOctavesFrom1k "400Hz" * 3 ∧
     (-20 : ℚ) < -20 - FreqAnal.getOctavesFrom1k "800Hz" * 3) ∧
    ((-20 : ℚ) > -20 - FreqAnal.getOctavesFrom1k "1.6kHz" * 3 ∧
     (-20 : ℚ) > -20 - FreqAnal.getOctavesFrom1k "3.2kHz" * 3 ∧
     (-20 : ℚ) > -20 - FreqAnal.getOctavesFrom1k "6.4kHz" * 3 ∧
     (-20 : ℚ) > -20 - FreqAnal.getOctavesFrom1k "12.8kHz" * 3 ∧
     (-20 : ℚ) > -20 - FreqAnal.getOctavesFrom1k "12.8kHz+" * 3) ∧
    FreqAnal.buildEqFilter uniformBands "Flat" =
      [.anequalizer 1600 1600 (-1.02), .anequalizer 3200 3200 (-2.52),
       .anequalizer 6400 6400 (-4.02), .anequalizer 12800 12800 (-5.52),
       .highshelf 12800 (-6.75)] := by
  refine ⟨?_, ?_, ?_, ?_⟩
  · norm_num [FreqAnal.overallRMS, uniformBands, standardBands, List.replicate,
      List.zip_cons_cons, List.map_cons, List.sum_cons]
  · norm_num +decide [FreqAnal.getOctavesFrom1k]
  · norm_num +decide [FreqAnal.getOctavesFrom1k]
  · norm_num +decide [FreqAnal.buildEqFilter, FreqAnal.calculateTargetCurve,
      FreqAnal.overallRMS, FreqAnal.flatTarget, FreqAnal.eqGain, FreqAnal.eqFilterPart,
      FreqAnal.getOctavesFrom1k, getBandpassParams, uniformBands, standardBands,
      List.replicate, List.zip_cons_cons, List.map_cons, List.map_nil, List.sum_cons,
      List.sum_nil, List.filterMap_cons, List.filterMap_nil, List.length_cons,
      List.length_nil, List.zip_nil_right]

/-- goodRun_measure: the measurement-and-encode tail of the pipeline keeps
the run invariants for any starting temp list. -/
theorem goodRun_measure (cfg : ProcessConfig) (o : EngineOutcomes)
    (temps : List TempKind) :
    GoodRun (processFile.processFileFromMeasure cfg o temps) := by
  unfold processFile.processFileFromMeasure
  split_ifs <;> simp [GoodRun, abortRun]

/-- goodRun_compression: the compression step keeps the run invariants. -/
theorem goodRun_compression (cfg : ProcessConfig) (o : EngineOutcomes)
    (temps : List TempKind) :
    GoodRun (processFile.processFileFromCompression cfg o temps) := by
  unfold processFile.processFileFromCompression
  split_ifs <;> first
    | exact goodRun_measure ..
    | simp [GoodRun, abortRun]

/-- goodRun_dynamics: the dynamics stage (attenuation pre-pass and
compression) keeps the run invariants. -/
theorem goodRun_dynamics (cfg : ProcessConfig) (o : EngineOutcomes)
    (temps : List TempKind) :
    GoodRun (processFile.processFileFromDynamics cfg o temps) := by
  unfold processFile.processFileFromDynamics
  split_ifs <;> first
    | exact goodRun_measure ..
    | exact goodRun_compression ..
    | simp [GoodRun, abortRun]

/-- goodRun_dynNorm: the dynamic-normalization stage keeps the run
invariants. -/
theorem goodRun_dynNorm (cfg : ProcessConfig) (o : EngineOutcomes)
    (temps : List TempKind) :
    GoodRun (processFile.processFileFromDynNorm cfg o temps) := by
  unfold processFile.processFileFromDynNorm
  split_ifs <;> first
    | exact goodRun_dynamics ..
    | simp [GoodRun, abortRun]

/-- goodRun_ds: the dynamics-score step keeps the run invariants. -/
theorem goodRun_ds (cfg : ProcessConfig) (o : EngineOutcomes)
    (temps : List TempKind) :
    GoodRun (processFile.processFileFromDs cfg o temps) := by
  unfold processFile.processFileFromDs
  split_ifs <;> first
    | exact goodRun_dynNorm ..
    | simp [GoodRun, abortRun]

/-- C2: for every configuration and every pattern of external-engine
outcomes, the deferred cleanup receives exactly the temp artifacts the run
appended (on every exit path), the output file exists exactly when the run
reports success, the run succeeds exactly when no entered stage failed,
and at most one failure record is emitted (the run aborts at the first
failing stage). -/
theorem processFile_cleanup_failfast (cfg : ProcessConfig) (o : EngineOutcomes) :
    (processFile cfg o).cleaned = (processFile cfg o).temps ∧
    (processFile cfg o).outputWritten = (processFile cfg o).success ∧
    ((processFile cfg o).success = true ↔ (processFile cfg o).failures = []) ∧
    (processFile cfg o).failures.length ≤ 1 := by
  have h : GoodRun (processFile cfg o) := by
    unfold processFile
    split_ifs <;> first
      | exact goodRun_ds ..
      | simp [GoodRun, abortRun]
  exact h

/-- Scenario D concretely: in a tag-only run with every stage enabled, a
failed EQ application aborts with the single eqApply failure record, no
output, and the one accumulated EQ temp artifact handed to cleanup. -/
theorem processFile_eq_failure_eval :
    processFile tagOnlyConfig eqFailureOutcomes =
      { success := false, outputWritten := false, temps := [TempKind.eqTemp],
        cleaned := [TempKind.eqTemp], failures := [Stage.eqApply] } := by
  simp +decide [processFile, abortRun, tagOnlyConfig, eqFailureOutcomes]

/-- C6: evaluating the 1.3.0 band compressor on a pre-compressed band
(ratio multiplier 0.15 < 0.3) with peak -10 dB: the emitted limiter attack
and release are the slow 80 ms / 2000 ms pair, but the emitted limiter
limit is the stale value 10^(-10.1/20) (peak - 0.1 dB) computed before the
pre-compressed override, strictly below the claimed linear limit 1.0; the
override rewrites only the dB variable that feeds the log line. -/
theorem buildBandAcompressor_precompressed_limiter_eval :
    (buildBandAcompressor (some bandPeakMinus10) 10 20 6 (-18)
        modsVeryCompressed).limiterAttack = 80 ∧
    (buildBandAcompressor (some bandPeakMinus10) 10 20 6 (-18)
        modsVeryCompressed).limiterRelease = 2000 ∧
    (buildBandAcompressor (some bandPeakMinus10) 10 20 6 (-18)
        modsVeryCompressed).limiterLin = dbToLinear (-10.1) ∧
    dbToLinear (-10.1) < 1 := by
  refine ⟨?_, ?_, ?_, dbToLinear_lt_one_of_neg _ (by norm_num)⟩
  · norm_num [buildBandAcompressor, bandPeakMinus10, modsVeryCompressed]
  · norm_num [buildBandAcompressor, bandPeakMinus10, modsVeryCompressed]
  · norm_num [buildBandAcompressor, bandPeakMinus10, modsVeryCompressed]
    intro h
    exact absurd h (not_lt.mpr (dbToLinear_lt_one_of_neg _ (by norm_num)).le)

/-- C7 counterexample: the nil-band fallback branch of the band compressor
emits the requested ratio unclamped, so a requested ratio of 25 appears in
the filter spec even though the documented range caps it at 20. -/
theorem buildBandAcompressor_nil_band_counterexample :
    (buildBandAcompressor none 10 20 25 (-18) modsVeryCompressed).ratio = 25 ∧
    ¬((25 : ℝ) ≤ 20) := by
  constructor
  · norm_num [buildBandAcompressor]
  · norm_num

/-- C7 amended: `ClampCompressorParams` keeps every parameter inside the
documented ranges for every input, and the band compressor keeps every
emitted compressor parameter inside them whenever a band analysis is
present (the nil-band fallback emits the requested ratio, attack and
release unclamped, which the counterexample exhibits). -/
theorem compressor_params_clamped :
    (∀ t r a rl m : ℝ,
      0.00097563 ≤ (ClampCompressorParams t r a rl m).1 ∧
      (ClampCompressorParams t r a rl m).1 ≤ 1 ∧
      1 ≤ (ClampCompressorParams t r a rl m).2.1 ∧
      (ClampCompressorParams t r a rl m).2.1 ≤ 20 ∧
      0.01 ≤ (ClampCompressorParams t r a rl m).2.2.1 ∧
      (ClampCompressorParams t r a rl m).2.2.1 ≤ 2000 ∧
      0.01 ≤ (ClampCompressorParams t r a rl m).2.2.2.1 ∧
      (ClampCompressorParams t r a rl m).2.2.2.1 ≤ 9000 ∧
      1 ≤ (ClampCompressorParams t r a rl m).2.2.2.2 ∧
      (ClampCompressorParams t r a rl m).2.2.2.2 ≤ 64) ∧
    (∀ (b : FrequencyBandAnalysis) (a rl r fb : ℝ) (mods : CompressionModifiers),
      0.00097563 ≤ (buildBandAcompressor (some b) a rl r fb mods).thresholdLin ∧
      (buildBandAcompressor (some b) a rl r fb mods).thresholdLin ≤ 1 ∧
      1 ≤ (buildBandAcompressor (some b) a rl r fb mods).ratio ∧
      (buildBandAcompressor (some b) a rl r fb mods).ratio ≤ 20 ∧
      0.01 ≤ (buildBandAcompressor (some b) a rl r fb mods).attackMs ∧
      (buildBandAcompressor (some b) a rl r fb mods).attackMs ≤ 2000 ∧
      0.01 ≤ (buildBandAcompressor (some b) a rl r fb mods).releaseMs ∧
      (buildBandAcompressor (some b) a rl r fb mods).releaseMs ≤ 9000 ∧
      1 ≤ (buildBandAcompressor (some b) a rl r fb mods).makeupLin ∧
      (buildBandAcompressor (some b) a rl r fb mods).makeupLin ≤ 64) := by
  constructor
  · intro t r a rl m
    simp only [ClampCompressorParams]
    refine ⟨(clampPair_bounds t 0.00097563 1 (by norm_num)).1,
      (clampPair_bounds t 0.00097563 1 (by norm_num)).2,
      (clampPair_bounds r 1 20 (by norm_num)).1,
      (clampPair_bounds r 1 20 (by norm_num)).2,
      (clampPair_bounds a 0.01 2000 (by norm_num)).1,
      (clampPair_bounds a 0.01 2000 (by norm_num)).2,
      (clampPair_bounds rl 0.01 9000 (by norm_num)).1,
      (clampPair_bounds rl 0.01 9000 (by norm_num)).2,
      (clampPair_bounds m 1 64 (by norm_num)).1,
      (clampPair_bounds m 1 64 (by norm_num)).2⟩
  · intro b a rl r fb mods
    simp only [buildBandAcompressor]
    refine ⟨?_, ?_, ?_, ?_, ?_, ?_, ?_, ?_, ?_, ?_⟩ <;>
      first
        | exact le_trans (by norm_num)
            (clampPair_bounds _ 0.00099 1 (by norm_num)).1
        | exact (clampPair_bounds _ 0.00099 1 (by norm_num)).2
        | exact (clampPair_bounds _ 1 20 (by norm_num)).1
        | exact (clampPair_bounds _ 1 20 (by norm_num)).2
        | exact (clampPair_bounds _ 0.01 2000 (by norm_num)).1
        | exact (clampPair_bounds _ 0.01 2000 (by norm_num)).2
        | exact (clampPair_bounds _ 0.01 9000 (by norm_num)).1
        | exact (clampPair_bounds _ 0.01 9000 (by norm_num)).2
        | exact (clampPair_bounds _ 1 64 (by norm_num)).1
        | exact (clampPair_bounds _ 1 64 (by norm_num)).2

/-- C8: in tag-only mode, with a successfully parsed integrated loudness
and true peak, the written ReplayGain metadata is gain = target minus
measured integrated loudness (in dB), peak = 10^(truePeakDb/20) (linear
amplitude), and the reference loudness is the target. -/
theorem replayGainTags_formula (target i tp : ℝ) :
    replayGainTags target (some i) (some tp) =
      { gainDb := target - i, peakLin := (10 : ℝ) ^ (tp / 20),
        refLoudness := target } := by
  simp [replayGainTags, dbToLinear]

/-- C9: for every non-nil dynamics analysis, the dynamic-normalization
parameters are the target RMS 10^((RMSPeak - 6)/20) and the threshold
10^((NoiseFloor + 12)/20), each clamped to [0, 1]. -/
theorem CalculateDynaudnormParams_formula (a : DynamicsAnalysis) :
    CalculateDynaudnormParams (some a) =
      some { TargetRMS := min 1 (max 0 ((10 : ℝ) ^ ((a.RMSPeak - 6) / 20))),
             Threshold := min 1 (max 0 ((10 : ℝ) ^ ((a.NoiseFloor + 12) / 20))),
             RMSPeakDB := a.RMSPeak, NoiseFloorDB := a.NoiseFloor } := by
  simp only [CalculateDynaudnormParams, dbToLinear]
  rw [clamp01_chain, clamp01_chain]

/-- C10: for every non-nil dynamics analysis the returned target RMS and
threshold are strictly positive: 10^x is always positive so the
clamp-to-zero branch is unreachable, and both outputs lie in (0, 1]. -/
theorem CalculateDynaudnormParams_pos (a : DynamicsAnalysis) (p : DynaudnormParams)
    (h : CalculateDynaudnormParams (some a) = some p) :
    0 < p.TargetRMS ∧ p.TargetRMS ≤ 1 ∧ 0 < p.Threshold ∧ p.Threshold ≤ 1 := by
  have hform : CalculateDynaudnormParams (some a) =
      some { TargetRMS := min 1 (max 0 (dbToLinear (a.RMSPeak - 6))),
             Threshold := min 1 (max 0 (dbToLinear (a.NoiseFloor + 12))),
             RMSPeakDB := a.RMSPeak, NoiseFloorDB := a.NoiseFloor } := by
    simp only [CalculateDynaudnormParams]
    rw [clamp01_chain, clamp01_chain]
  rw [hform] at h
  obtain rfl := (Option.some_injective _ h).symm
  have ht := dbToLinear_pos (a.RMSPeak - 6)
  have hh := dbToLinear_pos (a.NoiseFloor + 12)
  refine ⟨?_, min_le_left _ _, ?_, min_le_left _ _⟩
  · exact lt_min one_pos (lt_max_of_lt_right ht)
  · exact lt_min one_pos (lt_max_of_lt_right hh)

/-- C10 witness: at the all-zero analysis the parameters are
(10^(-6/20), 1), both inside (0, 1]. -/
theorem CalculateDynaudnormParams_pos_witness :
    0 < zeroDynParams.TargetRMS ∧ zeroDynParams.TargetRMS ≤ 1 ∧
    0 < zeroDynParams.Threshold ∧ zeroDynParams.Threshold ≤ 1 :=
  CalculateDynaudnormParams_pos zeroAnalysis zeroDynParams (by
    simp only [CalculateDynaudnormParams, zeroAnalysis, zeroDynParams]
    rw [clamp01_chain, clamp01_chain]
    have h1 : dbToLinear ((0 : ℝ) - 6) = dbToLinear (-6) := by norm_num
    have h2 : dbToLinear ((0 : ℝ) + 12) = dbToLinear 12 := by norm_num
    rw [h1, h2]
    have ht : dbToLinear (-6) < 1 := dbToLinear_lt_one_of_neg _ (by norm_num)
    have htpos := dbToLinear_pos (-6)
    have hh : (1 : ℝ) < dbToLinear 12 := by
      unfold dbToLinear
      exact Real.one_lt_rpow_iff_of_pos (by norm_num) |>.mpr (Or.inl ⟨by norm_num, by norm_num⟩)
    rw [max_eq_right htpos.le, min_eq_right ht.le,
      max_eq_right (by linarith : (0 : ℝ) ≤ dbToLinear 12), min_eq_left hh.le])
